import Mathlib

/-!
Verification of the MaaS billing backend (`apps/backend/server.py`) against its
natural-language specification.  The Python functions relevant to the claims are
shallowly embedded as Lean definitions: external HTTP calls become explicit
arguments (oracles / `Except` results), the module-level mutable counter dict
becomes an explicit state record, and Python floats are modelled as rationals
(the claims only use them through `int()` truncation and exact addition).
The file lists all definitions first, then all theorems.
-/

namespace MaasBilling

/-! ## Metrics aggregator (`fetch_cluster_metrics`, `fetch_real_metrics`) -/

/-- Outcome of one Prometheus query issued by `fetch_cluster_metrics`:
either `status == "success"` with a non-empty `result` carrying a scalar value,
or a well-formed response without data, or an exception during the query. -/
inductive QueryOutcome where
  | success (value : ℚ)
  | noData
  | failure
deriving Repr, DecidableEq

/-- One candidate Prometheus endpoint.  `live` is whether the `query=up`
liveness probe connects and reports `status == "success"`; `respond k q` is
the endpoint's behavior for the k-th data query of the cycle (0-based, in the
fixed `metrics_queries` iteration order) with query text `q`.  Each of the 11
queries is a separate `urlopen` with its own `try`/`except`, so outcomes are
independent per issuance: two issuances of the same query text may disagree
(one can time out, or the counter can move between the calls). -/
structure PrometheusHost where
  live : Bool
  respond : ℕ → String → QueryOutcome

/- The eleven query strings of the `metrics_queries` dict, verbatim. -/

def accepted_requests_query : String :=
  "sum(envoy_http_downstream_rq_xx\x7benvoy_response_code_class=\"2\",namespace=\"llm\"\x7d)"

def rate_limited_query : String :=
  "sum(envoy_http_downstream_rq_xx\x7benvoy_response_code_class=\"4\",namespace=\"llm\"\x7d)"

def auth_denied_query : String :=
  "sum(envoy_http_downstream_rq_xx\x7benvoy_response_code_class=\"4\",namespace=\"llm\"\x7d)"

def server_errors_query : String :=
  "sum(envoy_http_downstream_rq_xx\x7benvoy_response_code_class=\"5\",namespace=\"llm\"\x7d)"

def cluster_ingress_2xx_query : String :=
  "sum(haproxy_backend_http_responses_total\x7bcode=\"2xx\"\x7d)"

def cluster_ingress_4xx_query : String :=
  "sum(haproxy_backend_http_responses_total\x7bcode=\"4xx\"\x7d)"

def cluster_ingress_5xx_query : String :=
  "sum(haproxy_backend_http_responses_total\x7bcode=\"5xx\"\x7d)"

def cluster_4xx_1h_query : String :=
  "sum(increase(haproxy_backend_http_responses_total\x7bcode=\"4xx\"\x7d[1h]))"

def cluster_4xx_recent_query : String :=
  "sum(increase(haproxy_backend_http_responses_total\x7bcode=\"4xx\"\x7d[10m]))"

def limitador_status_query : String :=
  "sum(limitador_up\x7bnamespace=\"kuadrant-system\"\x7d)"

def http_requests_query : String :=
  "sum(rate(http_requests_total[5m]))"

/-- The `raw_metrics` dict filled by `fetch_cluster_metrics`, one field per
entry of `metrics_queries`. -/
structure RawMetrics where
  accepted_requests : ℚ
  rate_limited : ℚ
  auth_denied : ℚ
  server_errors : ℚ
  cluster_ingress_2xx_total : ℚ
  cluster_ingress_4xx_total : ℚ
  cluster_ingress_5xx_total : ℚ
  cluster_4xx_1h : ℚ
  cluster_4xx_recent : ℚ
  limitador_status : ℚ
  http_requests : ℚ
deriving Repr, DecidableEq

/-- Value recorded for the k-th metric: the scalar on success, and `0.0` when
that query errors or returns no data (the per-query `except` branch). -/
def metricValue (h : PrometheusHost) (k : ℕ) (q : String) : ℚ :=
  match h.respond k q with
  | .success v => v
  | .noData => 0
  | .failure => 0

/-- The query loop of `fetch_cluster_metrics` run against the selected host:
the eleven queries are issued one after the other, in the `metrics_queries`
iteration order. -/
def queryAllMetrics (h : PrometheusHost) : RawMetrics where
  accepted_requests := metricValue h 0 accepted_requests_query
  rate_limited := metricValue h 1 rate_limited_query
  auth_denied := metricValue h 2 auth_denied_query
  server_errors := metricValue h 3 server_errors_query
  cluster_ingress_2xx_total := metricValue h 4 cluster_ingress_2xx_query
  cluster_ingress_4xx_total := metricValue h 5 cluster_ingress_4xx_query
  cluster_ingress_5xx_total := metricValue h 6 cluster_ingress_5xx_query
  cluster_4xx_1h := metricValue h 7 cluster_4xx_1h_query
  cluster_4xx_recent := metricValue h 8 cluster_4xx_recent_query
  limitador_status := metricValue h 9 limitador_status_query
  http_requests := metricValue h 10 http_requests_query

/-- The endpoint loop: the first host whose liveness probe succeeds is used for
every query of the cycle. -/
def firstLiveHost : List PrometheusHost → Option PrometheusHost
  | [] => none
  | h :: hs => if h.live then some h else firstLiveHost hs

/-- `fetch_cluster_metrics`.  `inCluster` is `is_running_in_cluster()`;
`ocToken` is the result of `oc whoami -t` (only consulted off-cluster, where
its absence raises before any endpoint is tried).  When no endpoint's liveness
probe succeeds the function raises the explicit error of line 972. -/
def fetch_cluster_metrics (inCluster : Bool) (ocToken : Option String)
    (hosts : List PrometheusHost) : Except String RawMetrics :=
  if !inCluster && ocToken.isNone then
    .error "Cluster access required - please login with 'oc login'"
  else
    match firstLiveHost hosts with
    | some h => .ok (queryAllMetrics h)
    | none => .error "Unable to connect to any Prometheus endpoint. Cannot retrieve metrics."

/-- The module-level `SIMULATOR_METRICS` dict. -/
structure SimulatorMetrics where
  total_requests : ℕ
  successful_requests : ℕ
  failed_requests : ℕ
  auth_failures : ℕ
  rate_limits : ℕ
deriving Repr, DecidableEq

/-- The all-zero `SIMULATOR_METRICS` initial value. -/
def zeroSimulatorMetrics : SimulatorMetrics :=
  ⟨0, 0, 0, 0, 0⟩

/-- The clean-slate `raw_metrics` baseline installed by `fetch_real_metrics`
when `fetch_cluster_metrics` raised (all counters zero, `limitador_status`
pinned to `1.0`). -/
def fallbackRawMetrics : RawMetrics where
  accepted_requests := 0
  rate_limited := 0
  auth_denied := 0
  server_errors := 0
  cluster_ingress_2xx_total := 0
  cluster_ingress_4xx_total := 0
  cluster_ingress_5xx_total := 0
  cluster_4xx_1h := 0
  cluster_4xx_recent := 0
  limitador_status := 1
  http_requests := 0

/-- Python `int()` applied to a float: truncation toward zero. -/
def pyInt (q : ℚ) : ℤ :=
  if 0 ≤ q then ⌊q⌋ else ⌈q⌉

/-- The `rawMetrics` map nested in the snapshot returned by
`fetch_real_metrics`. -/
structure SnapshotRaw where
  total_requests_calculated : ℤ
  rate_limited : ℤ
  accepted_requests : ℤ
  auth_denied : ℤ
  server_errors : ℤ
  cluster_ingress_2xx_total : ℤ
  cluster_ingress_4xx_total : ℤ
  cluster_ingress_5xx_total : ℤ
  cluster_4xx_1h : ℤ
  cluster_4xx_recent : ℤ
  limitador_status : ℚ
  http_requests : ℚ
  simulator_metrics : Option SimulatorMetrics
  prometheus_raw : RawMetrics
deriving Repr, DecidableEq

/-- The metrics dict returned by `fetch_real_metrics`. -/
structure MetricsSnapshot where
  totalRequests : ℤ
  acceptedRequests : ℤ
  rejectedRequests : ℤ
  authFailedRequests : ℤ
  rateLimitedRequests : ℤ
  policyEnforcedRequests : ℤ
  limitadorConnected : Bool
  rawMetrics : SnapshotRaw
deriving Repr, DecidableEq

/-- `fetch_real_metrics`.  The `try` around `fetch_cluster_metrics` installs
the clean-slate baseline on any failure; off-cluster the `SIMULATOR_METRICS`
counters are then added to the component counters, and the two derived totals
are computed from the four components.  Everything after the fallback is pure,
so the function always returns a snapshot. -/
def fetch_real_metrics (inCluster : Bool) (ocToken : Option String)
    (hosts : List PrometheusHost) (sim : SimulatorMetrics) : MetricsSnapshot :=
  let raw : RawMetrics :=
    match fetch_cluster_metrics inCluster ocToken hosts with
    | .ok r => r
    | .error _ => fallbackRawMetrics
  let accepted0 := pyInt raw.accepted_requests
  let rateLimited0 := pyInt raw.rate_limited
  let authDenied0 := pyInt raw.auth_denied
  let server_errors := pyInt raw.server_errors
  let accepted := if !inCluster then accepted0 + (sim.successful_requests : ℤ) else accepted0
  let rateLimited := if !inCluster then rateLimited0 + (sim.rate_limits : ℤ) else rateLimited0
  let authDenied := if !inCluster then authDenied0 + (sim.auth_failures : ℤ) else authDenied0
  let total := accepted + rateLimited + authDenied + server_errors
  let rejected := rateLimited + authDenied + server_errors
  { totalRequests := total
    acceptedRequests := accepted
    rejectedRequests := rejected
    authFailedRequests := authDenied
    rateLimitedRequests := rateLimited
    policyEnforcedRequests := rejected
    limitadorConnected := decide (raw.limitador_status > 0)
    rawMetrics :=
      { total_requests_calculated := total
        rate_limited := rateLimited
        accepted_requests := accepted
        auth_denied := authDenied
        server_errors := server_errors
        cluster_ingress_2xx_total := pyInt raw.cluster_ingress_2xx_total
        cluster_ingress_4xx_total := pyInt raw.cluster_ingress_4xx_total
        cluster_ingress_5xx_total := pyInt raw.cluster_ingress_5xx_total
        cluster_4xx_1h := pyInt raw.cluster_4xx_1h
        cluster_4xx_recent := pyInt raw.cluster_4xx_recent
        limitador_status := raw.limitador_status
        http_requests := raw.http_requests
        simulator_metrics := if !inCluster then some sim else none
        prometheus_raw := raw } }

/-- A candidate endpoint whose liveness probe fails. -/
def deadHost : PrometheusHost :=
  ⟨false, fun _ _ => .failure⟩

/-- A live endpoint whose two issuances of the identical 4xx query disagree:
the `rate_limited` call (query 1 of the cycle) succeeds with 5, while the
`auth_denied` call (query 2, same query text) raises and is recorded as
`0.0`. -/
def flakyHost : PrometheusHost :=
  ⟨true, fun k _ => if k = 1 then .success 5 else if k = 2 then .failure else .success 0⟩

/-- A live endpoint whose responses depend only on the query text (a stable
source within the cycle). -/
def steadyHost : PrometheusHost :=
  ⟨true, fun _ q => if q = rate_limited_query then .success 7 else .success 0⟩

/-! ## Group extraction from rego expressions

The authorization-rule branch of the normalizer runs
`re.findall(r'groups\[_\] == "([^"]+)"', rego)` guarded by
`'groups[_] ==' in rego`.  The scan is embedded over `List Char`:
at each position the literal pattern prefix is tried; on a hit the
capture group takes the (non-empty) run of non-quote characters up to the
closing quote and scanning resumes after the match, otherwise scanning
advances one character — exactly `re.findall`'s left-to-right semantics
for this pattern. -/

/-- The substring tested by the `in` guard: `groups[_] ==`. -/
def groupGuard : List Char :=
  ['g', 'r', 'o', 'u', 'p', 's', '[', '_', ']', ' ', '=', '=']

/-- The literal part of the regex up to the capture group:
`groups[_] == "`. -/
def groupPat : List Char :=
  ['g', 'r', 'o', 'u', 'p', 's', '[', '_', ']', ' ', '=', '=', ' ', '"']

/-- Substring test (the Python `in` operator). -/
def hasInfix (needle : List Char) : List Char → Bool
  | [] => needle.isPrefixOf []
  | c :: cs => needle.isPrefixOf (c :: cs) || hasInfix needle cs

/-- The capture group `([^"]+)"`: the non-empty greedy run of non-quote
characters, which must be followed by a closing quote; returns the capture
and the remainder after the closing quote. -/
def readName (l : List Char) : Option (List Char × List Char) :=
  let cap := l.takeWhile (fun c => c ≠ '"')
  let rest := l.dropWhile (fun c => c ≠ '"')
  if cap.isEmpty then none
  else if rest.isEmpty then none
  else some (cap, rest.tail)

/-- A full match of the regex at the current position, if any. -/
def nextMatch (l : List Char) : Option (List Char × List Char) :=
  if groupPat.isPrefixOf l then readName (l.drop groupPat.length) else none

/-- The `re.findall` scan for the group pattern: all captures, in order of
occurrence. -/
def scanGroups : List Char → List (List Char)
  | [] => []
  | c :: cs =>
    match h : nextMatch (c :: cs) with
    | some (nm, rest) => nm :: scanGroups rest
    | none => scanGroups cs
termination_by l => l.length
decreasing_by
  · unfold nextMatch at h
    split at h
    · unfold readName at h
      dsimp only at h
      split at h
      · simp at h
      · split at h
        · simp at h
        · rename_i hcap hrest
          simp only [Option.some.injEq, Prod.mk.injEq] at h
          have hsplit := List.takeWhile_append_dropWhile
            (fun c => decide (c ≠ '"')) ((c :: cs).drop groupPat.length)
          have hlen := congrArg List.length hsplit
          rw [List.length_append] at hlen
          clear hcap hrest
          have htail : rest.length = (((c :: cs).drop groupPat.length).dropWhile
              (fun c => decide (c ≠ '"'))).length - 1 := by
            rw [← h.2, List.length_tail]
          have hdlen := List.length_drop (groupPat.length) (c :: cs)
          simp only [List.length_cons] at hdlen ⊢
          omega
    · simp at h
  · simp

/-- The rego text built from an initial segment `s₀` and then, for each block,
one occurrence of the full group pattern followed by that block's trailing
segment. -/
def buildRego : List Char → List (List Char × List Char) → List Char
  | s₀, [] => s₀
  | s₀, (nm, sep) :: rest => s₀ ++ (groupPat ++ (nm ++ '"' :: buildRego sep rest))

/-- An occurrence of the full pattern `groups[_] == "<name>"` (non-empty,
quote-free name) somewhere in the text. -/
def HasGroupMatch (l : List Char) : Prop :=
  ∃ s₁ nm rest, nm ≠ [] ∧ '"' ∉ nm ∧ l = s₁ ++ (groupPat ++ (nm ++ '"' :: rest))

/-- No full regex match starts strictly inside `s` when the text continues
with `l`: the scan passes over `s` without consuming a match.  Filler text may
freely contain `g`s, `groups`, `[` etc. — only an actual match occurrence is
excluded. -/
def scanClear : List Char → List Char → Bool
  | [], _ => true
  | c :: cs, l => (nextMatch ((c :: cs) ++ l)).isNone && scanClear cs l

/-- Well-formedness of a `buildRego` decomposition: every designated name is
non-empty and quote-free, and no match starts inside any filler segment — so
the designated occurrences are exactly the matches of the text.  Decidable,
and checked by `decide` at concrete inputs. -/
def buildRegoOk : List Char → List (List Char × List Char) → Bool
  | s₀, [] => scanClear s₀ []
  | s₀, (nm, sep) :: rest =>
      scanClear s₀ (groupPat ++ (nm ++ '"' :: buildRego sep rest)) &&
      decide (nm ≠ []) && decide ('"' ∉ nm) && buildRegoOk sep rest

/-- The authorization-rule group extraction of the normalizer: the `in` guard
followed by the regex scan (`allowed_groups`). -/
def extract_allowed_groups (rego : String) : List String :=
  if hasInfix groupGuard rego.toList then
    (scanGroups rego.toList).map String.mk
  else []

/-! ## Policy normalizer (`fetch_policies_from_k8s_api`,
`fetch_policies_from_external_k8s_api`, `fetch_kuadrant_policies`)

Raw Kuadrant objects are modelled with exactly the fields the normalizer
reads through its `.get` chains; rule maps are association lists because
Python dicts preserve insertion order.  `namespace` is a Lean keyword, so the
metadata field is called `nspace`. -/

structure K8sMetadata where
  nspace : Option String
  name : Option String
  creationTimestamp : Option String
  resourceVersion : Option String
deriving Repr, DecidableEq

/-- One `spec.rules.authentication` entry: the normalizer reads
`credentials.authorizationHeader.prefix`. -/
structure AuthRule where
  authHeaderPrefix : Option String
deriving Repr, DecidableEq

/-- One `spec.rules.authorization` entry: the normalizer reads `opa.rego`. -/
structure AuthzRule where
  rego : Option String
deriving Repr, DecidableEq

/-- A raw AuthPolicy object (response-rule configs are opaque to the
normalizer, so only the rule names are kept). -/
structure RawAuthPolicy where
  metadata : K8sMetadata
  authentication : List (String × AuthRule)
  authorization : List (String × AuthzRule)
  response : List String
  targetRefName : Option String
deriving Repr, DecidableEq

/-- One entry of a limit's `rates` list. -/
structure RateEntry where
  limit : Option ℤ
  window : Option String
deriving Repr, DecidableEq

/-- One entry of a limit's `when` list. -/
structure RateCondition where
  predicate : Option String
deriving Repr, DecidableEq

/-- One entry of `spec.limits`. -/
structure RateLimitEntry where
  rates : List RateEntry
  conditions : List RateCondition
  counters : List String
deriving Repr, DecidableEq

/-- A raw TokenRateLimitPolicy object. -/
structure RawRatePolicy where
  metadata : K8sMetadata
  limits : List (String × RateLimitEntry)
  targetRefName : Option String
deriving Repr, DecidableEq

inductive PolicyItemType where
  | authentication
  | authorization
  | response
  | rateLimit
deriving Repr, DecidableEq

/-- A normalized policy item; fields used by only some item kinds default to
empty (the Python dicts simply omit the keys). -/
structure PolicyItem where
  id : String
  type : PolicyItemType
  description : String
  allowedGroups : List String := []
  rates : List RateEntry := []
  counters : List String := []
  conditions : List RateCondition := []
deriving Repr, DecidableEq

/-- A normalized Policy record. -/
structure Policy where
  id : String
  name : String
  description : String
  type : String
  nspace : String
  created : String
  modified : String
  isActive : Bool
  items : List PolicyItem
deriving Repr, DecidableEq

/-- Python `str.title()` (ASCII): the first letter of each alphabetic run is
uppercased, the rest lowercased. -/
def pyTitle (s : String) : String :=
  String.mk ((s.toList.foldl
    (fun (acc : List Char × Bool) c =>
      ((if c.isAlpha then (if acc.2 then c.toLower else c.toUpper) else c) :: acc.1,
        c.isAlpha))
    ([], false)).1.reverse)

/-- The policy identity: `"{namespace}/{name}"` with the normalizer's
defaults for missing metadata fields. -/
def policyId (md : K8sMetadata) : String :=
  md.nspace.getD "default" ++ "/" ++ md.name.getD "unknown"

/-- One item per `authentication` rule. -/
def authenticationItem (name : String) (cfg : AuthRule) : PolicyItem :=
  { id := name
    type := .authentication
    description := "API Key authentication with " ++ cfg.authHeaderPrefix.getD "unknown" ++
      " prefix" }

/-- One item per `authorization` rule, with the regex group extraction. -/
def authorizationItem (name : String) (cfg : AuthzRule) : PolicyItem :=
  let groups := extract_allowed_groups (cfg.rego.getD "")
  { id := name
    type := .authorization
    description := "OPA policy allowing groups: " ++ String.intercalate ", " groups
    allowedGroups := groups }

/-- One item per `response` rule. -/
def responseItem (name : String) : PolicyItem :=
  { id := name
    type := .response
    description := pyTitle name ++ " response filter" }

/-- `"<limit> tokens per <window>"` for one rate entry, with the `.get`
defaults. -/
def rateText (r : RateEntry) : String :=
  (match r.limit with
   | some n => toString n
   | none => "unknown") ++ " tokens per " ++ r.window.getD "unknown"

/-- The rate item description as the normalizer builds it: the
`"Rate limit: <name>"` base, then `" - "` plus the comma-joined rate texts if
any rates exist, then the `" (when: ...)"` clause if any conditions exist. -/
def rateDescription (limitName : String) (e : RateLimitEntry) : String :=
  let base := "Rate limit: " ++ limitName
  let base2 :=
    if e.rates.isEmpty then base
    else base ++ " - " ++ String.intercalate ", " (e.rates.map rateText)
  if e.conditions.isEmpty then base2
  else base2 ++ " (when: " ++
    String.intercalate ", " (e.conditions.map fun c => c.predicate.getD "") ++ ")"

/-- One `RateLimitItem` per entry of the `limits` map. -/
def rateLimitItem (name : String) (e : RateLimitEntry) : PolicyItem :=
  { id := name
    type := .rateLimit
    description := rateDescription name e
    rates := e.rates
    counters := e.counters
    conditions := e.conditions }

/-- Normalization of one raw AuthPolicy (the AuthPolicy loop body, identical
in the in-cluster and external fetchers). -/
def authPolicyToPolicy (p : RawAuthPolicy) : Policy :=
  { id := policyId p.metadata
    name := p.metadata.name.getD "unknown"
    description := "AuthPolicy for " ++ p.targetRefName.getD "unknown" ++
      " with API key authentication and group-based authorization"
    type := "auth"
    nspace := p.metadata.nspace.getD "default"
    created := p.metadata.creationTimestamp.getD ""
    modified := p.metadata.resourceVersion.getD ""
    isActive := true
    items := p.authentication.map (fun x => authenticationItem x.1 x.2) ++
      p.authorization.map (fun x => authorizationItem x.1 x.2) ++
      p.response.map responseItem }

/-- Normalization of one raw TokenRateLimitPolicy (the rate-limit loop body,
identical in the in-cluster and external fetchers). -/
def ratePolicyToPolicy (p : RawRatePolicy) : Policy :=
  { id := policyId p.metadata
    name := p.metadata.name.getD "unknown"
    description := "Token-based rate limiting policy with per-user limits"
    type := "rate-limit"
    nspace := p.metadata.nspace.getD "default"
    created := p.metadata.creationTimestamp.getD ""
    modified := p.metadata.resourceVersion.getD ""
    isActive := true
    items := p.limits.map (fun x => rateLimitItem x.1 x.2) }

/-- `fetch_policies_from_k8s_api`: the Kuadrant API availability check returns
`[]` on failure; each of the two feeds is fetched inside its own
`try`/`except`, so a failed feed contributes nothing while the other feed's
policies are still appended.  The function never raises (the outer `except`
returns `[]`). -/
def fetch_policies_from_k8s_api (apiAvailable : Bool)
    (authFeed : Except String (List RawAuthPolicy))
    (rateFeed : Except String (List RawRatePolicy)) : List Policy :=
  if !apiAvailable then []
  else
    (match authFeed with
     | .ok l => l.map authPolicyToPolicy
     | .error _ => []) ++
    (match rateFeed with
     | .ok l => l.map ratePolicyToPolicy
     | .error _ => [])

/-- `fetch_policies_from_external_k8s_api`: same two guarded feeds, no
availability pre-check; never raises. -/
def fetch_policies_from_external_k8s_api
    (authFeed : Except String (List RawAuthPolicy))
    (rateFeed : Except String (List RawRatePolicy)) : List Policy :=
  (match authFeed with
   | .ok l => l.map authPolicyToPolicy
   | .error _ => []) ++
  (match rateFeed with
   | .ok l => l.map ratePolicyToPolicy
   | .error _ => [])

/-- `fetch_kuadrant_policies`: in-cluster uses the service-account path;
off-cluster an `oc` token is required, and any failure (no token, raised
exception) yields `[]`. -/
def fetch_kuadrant_policies (inCluster : Bool) (ocToken : Option String)
    (apiAvailable : Bool)
    (authFeed : Except String (List RawAuthPolicy))
    (rateFeed : Except String (List RawRatePolicy)) : List Policy :=
  if inCluster then fetch_policies_from_k8s_api apiAvailable authFeed rateFeed
  else
    match ocToken with
    | some _ => fetch_policies_from_external_k8s_api authFeed rateFeed
    | none => []

/-- The description construction stated by the spec for a rate-limit item
(no `"Rate limit: <name>"` base): the comma-joined `"<limit> tokens per
<window>"` texts, then the `" (when: ...)"` clause iff conditions exist.
Stated from the spec's words, for comparison with `rateDescription`. -/
def specRateItemDescription (e : RateLimitEntry) : String :=
  String.intercalate ", " (e.rates.map rateText) ++
    (if e.conditions.isEmpty then ""
     else " (when: " ++
       String.intercalate ", " (e.conditions.map fun c => c.predicate.getD "") ++ ")")

/-! ## Tier resolver (`get_user_tier_from_team`) -/

/-- The body returned by the key-manager `GET /teams/{id}` call, with every
field optional (the resolver reads them through `.get` with defaults). -/
structure KeyManagerTeam where
  policy : Option String
  usage : Option ℤ
  limit : Option ℤ
  models : Option (List String)
  team_id : Option String
  team_name : Option String
deriving Repr, DecidableEq

/-- The tier dict built by `get_user_tier_from_team`. -/
structure TierInfo where
  name : String
  usage : ℤ
  limit : ℤ
  models : List String
  team_id : String
  team_name : String
  policy : String
deriving Repr, DecidableEq

/-- `DEFAULT_TEAM_ID` with its default value. -/
def DEFAULT_TEAM_ID : String := "default"

/-- `get_user_tier_from_team`: the key-manager call is passed in as an
`Except` (`call_key_manager_api` converts every failure — network error,
non-2xx, malformed body — into a raised exception); the `except` branch
returns the hardcoded fallback tier.  The function is total: it never
propagates the error. -/
def get_user_tier_from_team (resp : Except String KeyManagerTeam) : TierInfo :=
  match resp with
  | .ok r =>
    let policy := r.policy.getD "unlimited-policy"
    { name := policy
      usage := r.usage.getD 0
      limit := r.limit.getD 100000
      models := r.models.getD []
      team_id := r.team_id.getD ""
      team_name := r.team_name.getD ""
      policy := policy }
  | .error _ =>
    { name := "unlimited-policy"
      usage := 0
      limit := 100000
      models := []
      team_id := DEFAULT_TEAM_ID
      team_name := "Default Team"
      policy := "unlimited-policy" }

/-! ## Gateway probe (`do_POST` branches) -/

/-- Outcome of the outbound gateway call: `urlopen` succeeded (2xx), raised
`HTTPError` with a status code, or raised a network-level error. -/
inductive GatewayOutcome where
  | ok2xx
  | httpError (code : ℕ)
  | networkError
deriving Repr, DecidableEq

/-- The `SIMULATOR_METRICS` update and success flag of the
`/api/v1/simulator/chat/completions` handler: every outcome increments
`total_requests`; 2xx also increments `successful_requests` and succeeds;
any `HTTPError` or network error increments `failed_requests` and fails,
with 401 additionally incrementing `auth_failures` and 429 `rate_limits`. -/
def simulator_chat_completions (o : GatewayOutcome) (m : SimulatorMetrics) :
    SimulatorMetrics × Bool :=
  match o with
  | .ok2xx =>
    ({ m with
        total_requests := m.total_requests + 1
        successful_requests := m.successful_requests + 1 }, true)
  | .httpError code =>
    let m1 := { m with
      total_requests := m.total_requests + 1
      failed_requests := m.failed_requests + 1 }
    let m2 :=
      if code = 401 then { m1 with auth_failures := m1.auth_failures + 1 }
      else if code = 429 then { m1 with rate_limits := m1.rate_limits + 1 }
      else m1
    (m2, false)
  | .networkError =>
    ({ m with
        total_requests := m.total_requests + 1
        failed_requests := m.failed_requests + 1 }, false)

/-- The `/api/v1/tokens/test` handler's gateway call: it classifies the
outcome into a success flag but touches no `SIMULATOR_METRICS` counter. -/
def tokens_test_gateway_call (o : GatewayOutcome) (m : SimulatorMetrics) :
    SimulatorMetrics × Bool :=
  match o with
  | .ok2xx => (m, true)
  | .httpError _ => (m, false)
  | .networkError => (m, false)

/-- Python's `str.strip()` whitespace set (ASCII). -/
def pyIsSpace (c : Char) : Bool :=
  c = ' ' || c = '\t' || c = '\n' || c = '\r' || c = '\x0b' || c = '\x0c'

/-- `not s or not s.strip()`: the string is empty or whitespace-only. -/
def isBlankPy (s : String) : Bool :=
  s.toList.all pyIsSpace

/-- Result of the `/api/v1/tokens/test` handler: a 400 validation error
issued before the outbound request is built, or the reply derived from the
gateway call. -/
inductive TokenTestResult where
  | validationError (msg : String)
  | gatewayReply (success : Bool) (statusCode : ℕ)
deriving Repr, DecidableEq

/-- The `/api/v1/tokens/test` handler: input validation first (token, then
message), and only past both checks is the outbound request issued; `net` is
the gateway's behavior for that request. -/
def token_test_handler (token message : String) (net : GatewayOutcome) :
    TokenTestResult :=
  if isBlankPy token then .validationError "Token is required"
  else if isBlankPy message then .validationError "Message is required"
  else
    match net with
    | .ok2xx => .gatewayReply true 200
    | .httpError c => .gatewayReply false c
    | .networkError => .gatewayReply false 503

/-! ## Theorems -/

/-- C1: every snapshot produced by `fetch_real_metrics` — for any raw counter
values returned by the queries, any execution context, and any simulator
counters — satisfies `totalRequests = accepted + rateLimited + authFailed +
serverErrors` and `rejectedRequests = rateLimited + authFailed + serverErrors`;
both totals are derived from the four components, never taken from a query
result. -/
theorem fetch_real_metrics_additive_invariant (inCluster : Bool)
    (ocToken : Option String) (hosts : List PrometheusHost)
    (sim : SimulatorMetrics) :
    (fetch_real_metrics inCluster ocToken hosts sim).totalRequests =
        (fetch_real_metrics inCluster ocToken hosts sim).acceptedRequests +
        (fetch_real_metrics inCluster ocToken hosts sim).rateLimitedRequests +
        (fetch_real_metrics inCluster ocToken hosts sim).authFailedRequests +
        (fetch_real_metrics inCluster ocToken hosts sim).rawMetrics.server_errors ∧
    (fetch_real_metrics inCluster ocToken hosts sim).rejectedRequests =
        (fetch_real_metrics inCluster ocToken hosts sim).rateLimitedRequests +
        (fetch_real_metrics inCluster ocToken hosts sim).authFailedRequests +
        (fetch_real_metrics inCluster ocToken hosts sim).rawMetrics.server_errors := by
  constructor <;> rfl

/-- C2 counterexample: running in the managed cluster with no candidate host
answering the liveness probe, `fetch_cluster_metrics` does raise the explicit
error, but the aggregation operation `fetch_real_metrics` — contrary to the
claim — does not raise: it catches the error unconditionally and returns the
all-zero baseline snapshot (with `limitador_status = 1.0` and no simulator
blending). -/
theorem fetch_real_metrics_in_cluster_fallback_counterexample :
    fetch_cluster_metrics true none [deadHost] =
      .error "Unable to connect to any Prometheus endpoint. Cannot retrieve metrics." ∧
    fetch_real_metrics true none [deadHost] zeroSimulatorMetrics =
      { totalRequests := 0
        acceptedRequests := 0
        rejectedRequests := 0
        authFailedRequests := 0
        rateLimitedRequests := 0
        policyEnforcedRequests := 0
        limitadorConnected := true
        rawMetrics :=
          { total_requests_calculated := 0
            rate_limited := 0
            accepted_requests := 0
            auth_denied := 0
            server_errors := 0
            cluster_ingress_2xx_total := 0
            cluster_ingress_4xx_total := 0
            cluster_ingress_5xx_total := 0
            cluster_4xx_1h := 0
            cluster_4xx_recent := 0
            limitador_status := 1
            http_requests := 0
            simulator_metrics := none
            prometheus_raw := fallbackRawMetrics } } := by
  constructor <;> rfl

/-- C2 amended: when no candidate host answers the liveness probe,
`fetch_cluster_metrics` raises the explicit "unable to retrieve metrics"
error, but `fetch_real_metrics` catches it in every caller context and
returns a snapshot built from the all-zero baseline with the
rate-limit-component-health sentinel set to healthy (`limitador_status =
1.0`); the `SimulatorCounters` are blended in exactly when the local
development context is active (not running in the managed cluster). -/
theorem fetch_real_metrics_fallback_behavior (inCluster : Bool)
    (ocToken : Option String) (hosts : List PrometheusHost)
    (sim : SimulatorMetrics) (hdead : firstLiveHost hosts = none) :
    fetch_cluster_metrics true ocToken hosts =
      .error "Unable to connect to any Prometheus endpoint. Cannot retrieve metrics." ∧
    (fetch_real_metrics inCluster ocToken hosts sim).rawMetrics.prometheus_raw =
      fallbackRawMetrics ∧
    (fetch_real_metrics inCluster ocToken hosts sim).rawMetrics.limitador_status = 1 ∧
    (fetch_real_metrics inCluster ocToken hosts sim).limitadorConnected = true ∧
    (fetch_real_metrics inCluster ocToken hosts sim).acceptedRequests =
      (if !inCluster then (sim.successful_requests : ℤ) else 0) ∧
    (fetch_real_metrics inCluster ocToken hosts sim).rateLimitedRequests =
      (if !inCluster then (sim.rate_limits : ℤ) else 0) ∧
    (fetch_real_metrics inCluster ocToken hosts sim).authFailedRequests =
      (if !inCluster then (sim.auth_failures : ℤ) else 0) ∧
    (fetch_real_metrics inCluster ocToken hosts sim).rawMetrics.server_errors = 0 ∧
    (fetch_real_metrics inCluster ocToken hosts sim).rawMetrics.simulator_metrics =
      (if !inCluster then some sim else none) := by
  have hclusterFetch : fetch_cluster_metrics true ocToken hosts =
      .error "Unable to connect to any Prometheus endpoint. Cannot retrieve metrics." := by
    unfold fetch_cluster_metrics
    simp [hdead]
  have hfall : (match fetch_cluster_metrics inCluster ocToken hosts with
      | .ok r => r
      | .error _ => fallbackRawMetrics) = fallbackRawMetrics := by
    unfold fetch_cluster_metrics
    cases inCluster <;> cases hoc : ocToken.isNone <;> simp [hdead, hoc]
  refine ⟨hclusterFetch, ?_, ?_, ?_, ?_, ?_, ?_, ?_, ?_⟩ <;>
    · unfold fetch_real_metrics
      rw [hfall]
      try (cases inCluster <;> simp [fallbackRawMetrics, pyInt])

/-- Witness for the amended C2 theorem at a concrete dead endpoint list. -/
theorem fetch_real_metrics_fallback_behavior_witness :
    fetch_cluster_metrics true none [deadHost] =
      .error "Unable to connect to any Prometheus endpoint. Cannot retrieve metrics." ∧
    (fetch_real_metrics false none [deadHost] zeroSimulatorMetrics).rawMetrics.prometheus_raw =
      fallbackRawMetrics ∧
    (fetch_real_metrics false none [deadHost] zeroSimulatorMetrics).rawMetrics.limitador_status = 1 ∧
    (fetch_real_metrics false none [deadHost] zeroSimulatorMetrics).limitadorConnected = true ∧
    (fetch_real_metrics false none [deadHost] zeroSimulatorMetrics).acceptedRequests =
      (if !false then ((zeroSimulatorMetrics).successful_requests : ℤ) else 0) ∧
    (fetch_real_metrics false none [deadHost] zeroSimulatorMetrics).rateLimitedRequests =
      (if !false then ((zeroSimulatorMetrics).rate_limits : ℤ) else 0) ∧
    (fetch_real_metrics false none [deadHost] zeroSimulatorMetrics).authFailedRequests =
      (if !false then ((zeroSimulatorMetrics).auth_failures : ℤ) else 0) ∧
    (fetch_real_metrics false none [deadHost] zeroSimulatorMetrics).rawMetrics.server_errors = 0 ∧
    (fetch_real_metrics false none [deadHost] zeroSimulatorMetrics).rawMetrics.simulator_metrics =
      (if !false then some zeroSimulatorMetrics else none) := by
  have h := fetch_real_metrics_fallback_behavior false none [deadHost]
    zeroSimulatorMetrics (by rfl)
  exact ⟨fetch_real_metrics_fallback_behavior true none [deadHost]
    zeroSimulatorMetrics (by rfl) |>.1, h.2.1, h.2.2.1, h.2.2.2.1, h.2.2.2.2.1,
    h.2.2.2.2.2.1, h.2.2.2.2.2.2.1, h.2.2.2.2.2.2.2.1, h.2.2.2.2.2.2.2.2⟩

theorem firstLiveHost_mem {hosts : List PrometheusHost} {h : PrometheusHost}
    (hfind : firstLiveHost hosts = some h) : h ∈ hosts := by
  induction hosts with
  | nil => simp [firstLiveHost] at hfind
  | cons a as ih =>
    unfold firstLiveHost at hfind
    split at hfind
    · simp only [Option.some.injEq] at hfind
      simp [hfind]
    · simp [ih hfind]

/-- C10 counterexample: the two metrics are the identical query text, but each
of the 11 queries is a separate request with its own error handling, so the
two issuances can disagree — against a live host whose `rate_limited` call
(query 1) returns 5 while its `auth_denied` call (query 2) raises (recorded
as 0.0), the in-cluster snapshot has `authFailedRequests = 0 ≠ 5 =
rateLimitedRequests`. -/
theorem auth_denied_ne_rate_limited_counterexample :
    (fetch_real_metrics true none [flakyHost] zeroSimulatorMetrics).authFailedRequests = 0 ∧
    (fetch_real_metrics true none [flakyHost] zeroSimulatorMetrics).rateLimitedRequests = 5 ∧
    (fetch_real_metrics true none [flakyHost] zeroSimulatorMetrics).authFailedRequests ≠
      (fetch_real_metrics true none [flakyHost] zeroSimulatorMetrics).rateLimitedRequests := by
  refine ⟨rfl, ?_, ?_⟩ <;> decide

/-- C10 amended: the `rate_limited` and `auth_denied` entries of
`metrics_queries` are the identical Prometheus query string (both sum the 4xx
response-code class for the llm namespace), and in every in-cluster snapshot
(no simulator blending) `authFailedRequests = rateLimitedRequests` whenever
the selected host's two independently issued copies of that query return the
same outcome — in particular whenever its responses depend only on the query
text, and always on the no-host fallback path; independent per-query failure
or counter movement between the two calls can make the fields differ. -/
theorem in_cluster_auth_denied_eq_rate_limited (ocToken : Option String)
    (hosts : List PrometheusHost) (sim : SimulatorMetrics)
    (hstable : ∀ h ∈ hosts,
      h.respond 2 auth_denied_query = h.respond 1 rate_limited_query) :
    auth_denied_query = rate_limited_query ∧
    (fetch_real_metrics true ocToken hosts sim).authFailedRequests =
    (fetch_real_metrics true ocToken hosts sim).rateLimitedRequests := by
  refine ⟨rfl, ?_⟩
  unfold fetch_real_metrics fetch_cluster_metrics
  cases hlive : firstLiveHost hosts with
  | none => simp [hlive, fallbackRawMetrics]
  | some h =>
    have heqresp := hstable h (firstLiveHost_mem hlive)
    simp [hlive, queryAllMetrics, metricValue, heqresp]

/-- Witness for the amended C10 theorem: a host whose responses depend only
on the query text satisfies the same-outcome hypothesis, and the two snapshot
fields agree. -/
theorem in_cluster_auth_denied_eq_rate_limited_witness :
    auth_denied_query = rate_limited_query ∧
    (fetch_real_metrics true none [steadyHost] zeroSimulatorMetrics).authFailedRequests =
    (fetch_real_metrics true none [steadyHost] zeroSimulatorMetrics).rateLimitedRequests :=
  in_cluster_auth_denied_eq_rate_limited none [steadyHost] zeroSimulatorMetrics
    (by
      intro h hh
      simp only [List.mem_singleton] at hh
      subst hh
      rfl)

/-! ### Scanner lemmas (towards C6) -/

theorem scanGroups_nil : scanGroups [] = [] := by
  rw [scanGroups]

theorem scanGroups_cons_none {c : Char} {cs : List Char}
    (h : nextMatch (c :: cs) = none) :
    scanGroups (c :: cs) = scanGroups cs := by
  conv_lhs => rw [scanGroups]
  split
  · rename_i nm rest hm
    rw [h] at hm
    exact absurd hm (by simp)
  · rfl

theorem scanGroups_cons_some {c : Char} {cs nm rest : List Char}
    (h : nextMatch (c :: cs) = some (nm, rest)) :
    scanGroups (c :: cs) = nm :: scanGroups rest := by
  conv_lhs => rw [scanGroups]
  split
  · rename_i nm' rest' hm
    rw [h] at hm
    simp at hm
    rw [hm.1, hm.2]
  · rename_i hm
    rw [h] at hm
    exact absurd hm (by simp)

theorem scanGroups_skip_clear (s l : List Char) (h : scanClear s l = true) :
    scanGroups (s ++ l) = scanGroups l := by
  induction s with
  | nil => simp
  | cons c cs ih =>
    unfold scanClear at h
    rw [Bool.and_eq_true] at h
    have h1 : nextMatch (c :: (cs ++ l)) = none := by
      have h1' := h.1
      rwa [List.cons_append, Option.isNone_iff_eq_none] at h1'
    rw [List.cons_append, scanGroups_cons_none h1]
    exact ih h.2

theorem takeWhile_clean {nm rest : List Char} (hq : '"' ∉ nm) :
    (nm ++ '"' :: rest).takeWhile (fun c => c ≠ '"') = nm := by
  induction nm with
  | nil => simp [List.takeWhile_cons]
  | cons a nm ih =>
    have ha : a ≠ '"' := by
      intro h
      exact hq (by simp [h])
    rw [List.cons_append, List.takeWhile_cons_of_pos (by simpa using ha)]
    rw [ih (fun h => hq (by simp [h]))]

theorem dropWhile_clean {nm rest : List Char} (hq : '"' ∉ nm) :
    (nm ++ '"' :: rest).dropWhile (fun c => c ≠ '"') = '"' :: rest := by
  induction nm with
  | nil => simp [List.dropWhile_cons]
  | cons a nm ih =>
    have ha : a ≠ '"' := by
      intro h
      exact hq (by simp [h])
    rw [List.cons_append, List.dropWhile_cons_of_pos (by simpa using ha)]
    exact ih (fun h => hq (by simp [h]))

theorem readName_of_clean {nm rest : List Char} (hne : nm ≠ []) (hq : '"' ∉ nm) :
    readName (nm ++ '"' :: rest) = some (nm, rest) := by
  unfold readName
  dsimp only
  rw [takeWhile_clean hq, dropWhile_clean hq]
  simp [hne]

theorem nextMatch_of_clean {nm rest : List Char} (hne : nm ≠ []) (hq : '"' ∉ nm) :
    nextMatch (groupPat ++ (nm ++ '"' :: rest)) = some (nm, rest) := by
  unfold nextMatch
  have hpre : groupPat.isPrefixOf (groupPat ++ (nm ++ '"' :: rest)) = true := by
    rw [List.isPrefixOf_iff_prefix]
    exact List.prefix_append _ _
  rw [hpre]
  simp only [if_true, List.drop_left]
  exact readName_of_clean hne hq

theorem scanGroups_match {nm rest : List Char} (hne : nm ≠ []) (hq : '"' ∉ nm) :
    scanGroups (groupPat ++ (nm ++ '"' :: rest)) = nm :: scanGroups rest := by
  have h := @nextMatch_of_clean nm rest hne hq
  rw [show groupPat ++ (nm ++ '"' :: rest) =
      'g' :: (['r', 'o', 'u', 'p', 's', '[', '_', ']', ' ', '=', '=', ' ', '"'] ++
        (nm ++ '"' :: rest)) from rfl] at h ⊢
  exact scanGroups_cons_some h

theorem scanGroups_buildRego (blocks : List (List Char × List Char))
    (s₀ : List Char) (hok : buildRegoOk s₀ blocks = true) :
    scanGroups (buildRego s₀ blocks) = blocks.map Prod.fst := by
  induction blocks generalizing s₀ with
  | nil =>
    unfold buildRegoOk at hok
    have h := scanGroups_skip_clear s₀ [] hok
    simpa [buildRego, scanGroups_nil] using h
  | cons b rest ih =>
    obtain ⟨nm, sep⟩ := b
    unfold buildRegoOk at hok
    rw [Bool.and_eq_true, Bool.and_eq_true, Bool.and_eq_true] at hok
    obtain ⟨⟨⟨h1, h2⟩, h3⟩, h4⟩ := hok
    rw [buildRego, scanGroups_skip_clear s₀ _ h1,
      scanGroups_match (of_decide_eq_true h2) (of_decide_eq_true h3), ih sep h4]
    simp

theorem scanGroups_ne_nil_of_match (l : List Char) (h : HasGroupMatch l) :
    scanGroups l ≠ [] := by
  induction l with
  | nil =>
    obtain ⟨s₁, nm, rest, hne, hq, heq⟩ := h
    have hlen := congrArg List.length heq
    simp [groupPat, List.length_append] at hlen
    omega
  | cons c cs ih =>
    cases hm : nextMatch (c :: cs) with
    | some p =>
      obtain ⟨nm, rest⟩ := p
      rw [scanGroups_cons_some hm]
      simp
    | none =>
      rw [scanGroups_cons_none hm]
      apply ih
      obtain ⟨s₁, nm, rest, hne, hq, heq⟩ := h
      cases s₁ with
      | nil =>
        exfalso
        have hsome : nextMatch (c :: cs) = some (nm, rest) := by
          rw [show c :: cs = groupPat ++ (nm ++ '"' :: rest) from by simpa using heq]
          exact nextMatch_of_clean hne hq
        rw [hsome] at hm
        exact absurd hm (by simp)
      | cons a s₁' =>
        simp only [List.cons_append, List.cons.injEq] at heq
        exact ⟨s₁', nm, rest, hne, hq, heq.2⟩

theorem readName_inv {l nm rest : List Char} (h : readName l = some (nm, rest)) :
    l = nm ++ '"' :: rest ∧ nm ≠ [] ∧ '"' ∉ nm := by
  unfold readName at h
  dsimp only at h
  split at h
  · simp at h
  · split at h
    · simp at h
    · rename_i hcap hrest
      simp only [Option.some.injEq, Prod.mk.injEq] at h
      obtain ⟨hnm, hrest'⟩ := h
      have hsplit := List.takeWhile_append_dropWhile (fun c => decide (c ≠ '"')) l
      have hdne : l.dropWhile (fun c => decide (c ≠ '"')) ≠ [] := by
        simpa [List.isEmpty_iff] using hrest
      have hheadq : (l.dropWhile (fun c => decide (c ≠ '"'))).head hdne = '"' := by
        have hhead := List.head_dropWhile_not (fun c => decide (c ≠ '"')) l hdne
        simpa using hhead
      have hcons : l.dropWhile (fun c => decide (c ≠ '"')) =
          '"' :: (l.dropWhile (fun c => decide (c ≠ '"'))).tail := by
        conv_lhs => rw [← List.head_cons_tail _ hdne]
        rw [hheadq]
      refine ⟨?_, ?_, ?_⟩
      · have hgoal : nm ++ '"' :: rest = l := by
          rw [← hnm, ← hrest', ← hcons]
          exact hsplit
        exact hgoal.symm
      · rw [← hnm]
        simpa [List.isEmpty_iff] using hcap
      · rw [← hnm]
        intro hmem
        have := List.mem_takeWhile_imp hmem
        simp at this

theorem nextMatch_inv {l nm rest : List Char}
    (h : nextMatch l = some (nm, rest)) :
    l = groupPat ++ (nm ++ '"' :: rest) ∧ nm ≠ [] ∧ '"' ∉ nm := by
  unfold nextMatch at h
  split at h
  · rename_i hpre
    rw [List.isPrefixOf_iff_prefix] at hpre
    obtain ⟨t, ht⟩ := hpre
    have hdrop : l.drop groupPat.length = t := by
      rw [← ht, List.drop_left]
    rw [hdrop] at h
    obtain ⟨hteq, hne, hq⟩ := readName_inv h
    exact ⟨by rw [← ht, hteq], hne, hq⟩
  · simp at h

theorem scanGroups_eq_nil_of_no_match (l : List Char)
    (h : ¬ HasGroupMatch l) : scanGroups l = [] := by
  induction l with
  | nil => exact scanGroups_nil
  | cons c cs ih =>
    cases hm : nextMatch (c :: cs) with
    | some p =>
      obtain ⟨nm, rest⟩ := p
      obtain ⟨heq, hne, hq⟩ := nextMatch_inv hm
      exact absurd ⟨[], nm, rest, hne, hq, by simpa using heq⟩ h
    | none =>
      rw [scanGroups_cons_none hm]
      refine ih (fun hcs => h ?_)
      obtain ⟨s₁, nm, rest, hne, hq, heq⟩ := hcs
      exact ⟨c :: s₁, nm, rest, hne, hq, by simp [heq]⟩

theorem hasInfix_iff (n l : List Char) :
    hasInfix n l = true ↔ ∃ s t, l = s ++ (n ++ t) := by
  induction l with
  | nil =>
    simp only [hasInfix, List.isPrefixOf_iff_prefix]
    constructor
    · intro hp
      have := List.eq_nil_of_prefix_nil hp
      exact ⟨[], [], by simp [this]⟩
    · rintro ⟨s, t, hst⟩
      have hs : s = [] ∧ n ++ t = [] := by
        simpa using hst.symm
      have hn : n = [] := by
        have := hs.2
        simpa using this.symm ▸ (List.append_eq_nil.mp this).1
      simp [hn]
  | cons c cs ih =>
    unfold hasInfix
    rw [Bool.or_eq_true, ih, List.isPrefixOf_iff_prefix]
    constructor
    · rintro (hp | ⟨s, t, hst⟩)
      · obtain ⟨t, ht⟩ := hp
        exact ⟨[], t, by simp [← ht]⟩
      · exact ⟨c :: s, t, by simp [hst]⟩
    · rintro ⟨s, t, hst⟩
      cases s with
      | nil =>
        left
        exact ⟨t, by simpa using hst.symm⟩
      | cons a s =>
        right
        simp only [List.cons_append, List.cons.injEq] at hst
        exact ⟨s, t, hst.2⟩

/-- C6: for every rego expression containing occurrences of the literal
pattern `groups[_] == "<name>"` — any text decomposing into those occurrences
interleaved with arbitrary filler segments in which no further match starts
(the filler may contain `g`s, `groups`, brackets, etc.), covering the spec's
`... == "admins" and ... == "users"` example — the extractor returns exactly
the matched names in order of occurrence; for any expression containing no
occurrence of the pattern it returns `[]`, and conversely any expression
containing an occurrence yields a non-empty result. -/
theorem extract_allowed_groups_spec (s₀ : List Char)
    (blocks : List (List Char × List Char)) (rego regoPos : String)
    (hok : buildRegoOk s₀ blocks = true)
    (hneg : ¬ HasGroupMatch rego.toList)
    (hpos : HasGroupMatch regoPos.toList) :
    extract_allowed_groups (String.mk (buildRego s₀ blocks)) =
      blocks.map (fun b => String.mk b.1) ∧
    extract_allowed_groups rego = [] ∧
    extract_allowed_groups regoPos ≠ [] := by
  refine ⟨?_, ?_, ?_⟩
  · unfold extract_allowed_groups
    rw [show (String.mk (buildRego s₀ blocks)).toList = buildRego s₀ blocks from rfl]
    cases blocks with
    | nil =>
      have hscan : scanGroups (buildRego s₀ []) = [] := by
        unfold buildRegoOk at hok
        have h := scanGroups_skip_clear s₀ [] hok
        simpa [buildRego, scanGroups_nil] using h
      split <;> simp [hscan]
    | cons b rest =>
      obtain ⟨nm, sep⟩ := b
      have hguard : hasInfix groupGuard (buildRego s₀ ((nm, sep) :: rest)) = true := by
        rw [hasInfix_iff]
        refine ⟨s₀, ' ' :: '"' :: (nm ++ '"' :: buildRego sep rest), ?_⟩
        rw [buildRego]
        rfl
      rw [hguard]
      simp only [if_true]
      rw [scanGroups_buildRego ((nm, sep) :: rest) s₀ hok]
      simp
  · unfold extract_allowed_groups
    have hscan := scanGroups_eq_nil_of_no_match _ hneg
    simp only [String.toList] at hscan
    split <;> simp [hscan]
  · have hguard : hasInfix groupGuard regoPos.toList = true := by
      obtain ⟨s₁, nm, rest, hne, hq, heq⟩ := hpos
      rw [hasInfix_iff]
      refine ⟨s₁, ' ' :: '"' :: (nm ++ '"' :: rest), ?_⟩
      rw [heq]
      rfl
    have hne' := scanGroups_ne_nil_of_match _ hpos
    unfold extract_allowed_groups
    rw [hguard]
    simp only [if_true, String.toList] at hne' ⊢
    intro hmap
    exact hne' (List.map_eq_nil_iff.mp hmap)

/-- Witness for C6 at the spec's example embedded in realistic rego glue
(fillers containing `g`s and the word `groups`): the text
`some g in input.groups; groups[_] == "admins" and also groups here
groups[_] == "users"; allow` yields `["admins", "users"]`; the pattern-free
rego `"opa"` yields `[]`; and `groups[_] == "admins"` yields a non-empty
result. -/
theorem extract_allowed_groups_spec_witness :
    extract_allowed_groups (String.mk (buildRego "some g in input.groups; ".toList
      [("admins".toList, " and also groups here ".toList),
       ("users".toList, "; allow".toList)])) = ["admins", "users"] ∧
    extract_allowed_groups "opa" = [] ∧
    extract_allowed_groups "groups[_] == \"admins\"" ≠ [] := by
  have h := extract_allowed_groups_spec "some g in input.groups; ".toList
    [("admins".toList, " and also groups here ".toList),
     ("users".toList, "; allow".toList)] "opa" "groups[_] == \"admins\""
    (by decide)
    (by
      rintro ⟨s₁, nm, rest, hne, hq, heq⟩
      have hlen := congrArg List.length heq
      simp [groupPat, List.length_append] at hlen
      omega)
    ⟨[], "admins".toList, [], by decide, by decide, by decide⟩
  exact h

/-- C3: for every pair of raw policy lists, the normalizer output (identical
through the in-cluster and external paths) has length `#auth + #rate`, and the
i-th output id is `"{namespace}/{name}"` of the i-th input with `"default"` /
`"unknown"` substituted for missing metadata fields. -/
theorem normalizer_length_and_ids (auths : List RawAuthPolicy)
    (rates : List RawRatePolicy) :
    (fetch_policies_from_k8s_api true (.ok auths) (.ok rates)).length =
      auths.length + rates.length ∧
    (fetch_policies_from_k8s_api true (.ok auths) (.ok rates)).map Policy.id =
      auths.map (fun a =>
        a.metadata.nspace.getD "default" ++ "/" ++ a.metadata.name.getD "unknown") ++
      rates.map (fun r =>
        r.metadata.nspace.getD "default" ++ "/" ++ r.metadata.name.getD "unknown") ∧
    fetch_policies_from_external_k8s_api (.ok auths) (.ok rates) =
      fetch_policies_from_k8s_api true (.ok auths) (.ok rates) := by
  refine ⟨?_, ?_, rfl⟩
  · simp [fetch_policies_from_k8s_api]
  · simp only [fetch_policies_from_k8s_api, Bool.not_true, Bool.false_eq_true,
      if_false, List.map_append, List.map_map]
    rfl

/-- C7: an unreachable raw policy source yields `[]` (API check failed; both
feeds failed; no token off-cluster) with no raise and no placeholder
policies, while a single failed feed still yields the succeeding feed's
normalized policies. -/
theorem fetch_policies_failure_behavior (eA eR : String)
    (auths : List RawAuthPolicy) (rates : List RawRatePolicy)
    (apiAvailable : Bool)
    (authFeed : Except String (List RawAuthPolicy))
    (rateFeed : Except String (List RawRatePolicy)) :
    fetch_policies_from_k8s_api false authFeed rateFeed = [] ∧
    fetch_policies_from_k8s_api apiAvailable (.error eA) (.error eR) = [] ∧
    fetch_kuadrant_policies false none apiAvailable authFeed rateFeed = [] ∧
    fetch_policies_from_k8s_api true (.error eA) (.ok rates) =
      rates.map ratePolicyToPolicy ∧
    fetch_policies_from_k8s_api true (.ok auths) (.error eR) =
      auths.map authPolicyToPolicy := by
  refine ⟨rfl, ?_, rfl, by simp [fetch_policies_from_k8s_api],
    by simp [fetch_policies_from_k8s_api]⟩
  cases apiAvailable <;> simp [fetch_policies_from_k8s_api]

/-- C8 counterexample: for a limit named `basic` with one rate
`{limit: 100, window: "1m"}` and no conditions, the claim's construction
gives `"100 tokens per 1m"`, but the code's description is
`"Rate limit: basic - 100 tokens per 1m"`. -/
theorem rate_description_counterexample :
    (rateLimitItem "basic" ⟨[⟨some 100, some "1m"⟩], [], []⟩).description =
      "Rate limit: basic - 100 tokens per 1m" ∧
    specRateItemDescription ⟨[⟨some 100, some "1m"⟩], [], []⟩ =
      "100 tokens per 1m" ∧
    (rateLimitItem "basic" ⟨[⟨some 100, some "1m"⟩], [], []⟩).description ≠
      specRateItemDescription ⟨[⟨some 100, some "1m"⟩], [], []⟩ := by
  refine ⟨rfl, rfl, ?_⟩
  decide

/-- C8 amended: the normalizer produces one `RateLimitItem` per entry of the
`limits` map (in order), and each item's description is
`"Rate limit: <limitName>"`, then `" - "` followed by the claim's
construction when rates exist — i.e. the comma-joined
`"<limit> tokens per <window>"` texts with the `" (when: <predicates>)"`
clause appended iff conditions exist. -/
theorem rate_items_and_description (p : RawRatePolicy) (name : String)
    (e : RateLimitEntry) :
    (ratePolicyToPolicy p).items.map PolicyItem.id = p.limits.map Prod.fst ∧
    (ratePolicyToPolicy p).items.length = p.limits.length ∧
    (rateLimitItem name e).description =
      "Rate limit: " ++ name ++
        (if e.rates.isEmpty then ""
         else " - " ++ String.intercalate ", " (e.rates.map rateText)) ++
        (if e.conditions.isEmpty then ""
         else " (when: " ++
           String.intercalate ", " (e.conditions.map fun c => c.predicate.getD "") ++
           ")") ∧
    (rateLimitItem name e).description =
      "Rate limit: " ++ name ++ (if e.rates.isEmpty then "" else " - ") ++
        specRateItemDescription e := by
  refine ⟨?_, ?_, ?_, ?_⟩
  · simp [ratePolicyToPolicy, List.map_map, Function.comp, rateLimitItem]
  · simp [ratePolicyToPolicy]
  · unfold rateLimitItem rateDescription
    dsimp only
    cases hr : e.rates.isEmpty <;> cases hc : e.conditions.isEmpty <;>
      simp [hr, hc, String.append_assoc]
  · unfold rateLimitItem rateDescription specRateItemDescription
    dsimp only
    cases hr : e.rates.isEmpty <;> cases hc : e.conditions.isEmpty
    · simp [hr, hc, String.append_assoc]
    · simp [hr, hc, String.append_assoc]
    · have hr' : e.rates = [] := List.isEmpty_iff.mp hr
      simp [hr', hc, String.intercalate, String.append_assoc]
    · have hr' : e.rates = [] := List.isEmpty_iff.mp hr
      simp [hr', hc, String.intercalate, String.append_assoc]

/-- C4: whenever the key-management call fails in any way (the call helper
converts every failure into a raised exception), `get_user_tier_from_team`
does not raise and returns exactly the documented fallback tier:
`policy = "unlimited-policy"`, `usage = 0`, `limit = 100000`, `models = []`. -/
theorem get_user_tier_from_team_fallback (msg : String) :
    get_user_tier_from_team (.error msg) =
      { name := "unlimited-policy"
        usage := 0
        limit := 100000
        models := []
        team_id := DEFAULT_TEAM_ID
        team_name := "Default Team"
        policy := "unlimited-policy" } ∧
    (get_user_tier_from_team (.error msg)).policy = "unlimited-policy" ∧
    (get_user_tier_from_team (.error msg)).usage = 0 ∧
    (get_user_tier_from_team (.error msg)).limit = 100000 ∧
    (get_user_tier_from_team (.error msg)).models = [] :=
  ⟨rfl, rfl, rfl, rfl, rfl⟩

/-- C5 counterexample: a token-test gateway probe call answered with 401
leaves every simulator counter untouched — `total_requests` is not
incremented and `auth_failures` is not incremented, contradicting the claim
for this probe endpoint (it does classify the outcome as `success = false`). -/
theorem tokens_test_counters_counterexample :
    (tokens_test_gateway_call (.httpError 401) zeroSimulatorMetrics).1.total_requests ≠
      zeroSimulatorMetrics.total_requests + 1 ∧
    (tokens_test_gateway_call (.httpError 401) zeroSimulatorMetrics).1.auth_failures ≠
      zeroSimulatorMetrics.auth_failures + 1 ∧
    (tokens_test_gateway_call (.httpError 401) zeroSimulatorMetrics).1 =
      zeroSimulatorMetrics ∧
    (tokens_test_gateway_call (.httpError 401) zeroSimulatorMetrics).2 = false := by
  refine ⟨?_, ?_, rfl, rfl⟩ <;> decide

/-- C5 amended: the simulator chat-completions probe updates the shared
counters strictly by HTTP status — 401 increments `auth_failures` with
`success = false`, 429 increments `rate_limits`, 2xx increments
`successful_requests` with `success = true`, and every outcome increments
`total_requests` exactly once — while the token-test probe performs the same
status classification but never touches the simulator counters. -/
theorem simulator_probe_classification (m : SimulatorMetrics) :
    (∀ o, (simulator_chat_completions o m).1.total_requests = m.total_requests + 1) ∧
    (simulator_chat_completions (.httpError 401) m).1.auth_failures =
      m.auth_failures + 1 ∧
    (simulator_chat_completions (.httpError 401) m).2 = false ∧
    (simulator_chat_completions (.httpError 429) m).1.rate_limits =
      m.rate_limits + 1 ∧
    (simulator_chat_completions (.httpError 429) m).2 = false ∧
    (simulator_chat_completions .ok2xx m).1.successful_requests =
      m.successful_requests + 1 ∧
    (simulator_chat_completions .ok2xx m).2 = true ∧
    (∀ o, (tokens_test_gateway_call o m).1 = m) := by
  refine ⟨fun o => ?_, ?_, rfl, ?_, rfl, rfl, rfl, fun o => ?_⟩
  · cases o with
    | ok2xx => rfl
    | httpError code =>
      simp only [simulator_chat_completions]
      by_cases h1 : code = 401
      · simp [h1]
      · by_cases h2 : code = 429 <;> simp [h1, h2]
    | networkError => rfl
  · rfl
  · rfl
  · cases o <;> rfl

/-- C9: a token-test request whose token is empty/whitespace-only or whose
message is empty/whitespace-only is rejected with a distinct client-error
result naming the missing field, and the result does not depend on the
gateway at all — the outbound request is never sent. -/
theorem token_test_validation (token message : String)
    (net net' : GatewayOutcome)
    (h : isBlankPy token = true ∨ isBlankPy message = true) :
    (∃ msg, token_test_handler token message net = .validationError msg) ∧
    token_test_handler token message net = token_test_handler token message net' ∧
    (isBlankPy token = true →
      token_test_handler token message net = .validationError "Token is required") ∧
    (isBlankPy token = false → isBlankPy message = true →
      token_test_handler token message net = .validationError "Message is required") := by
  cases ht : isBlankPy token with
  | true => simp [token_test_handler, ht]
  | false =>
    cases hm : isBlankPy message with
    | true => simp [token_test_handler, ht, hm]
    | false =>
      rw [ht, hm] at h
      simp at h

/-- Witness for C9 at a whitespace-only token: the request is rejected with
the token error independently of the gateway outcome. -/
theorem token_test_validation_witness :
    (∃ msg, token_test_handler "   " "hi" GatewayOutcome.ok2xx =
      .validationError msg) ∧
    token_test_handler "   " "hi" GatewayOutcome.ok2xx =
      token_test_handler "   " "hi" GatewayOutcome.networkError ∧
    (isBlankPy "   " = true →
      token_test_handler "   " "hi" GatewayOutcome.ok2xx =
        .validationError "Token is required") ∧
    (isBlankPy "   " = false → isBlankPy "hi" = true →
      token_test_handler "   " "hi" GatewayOutcome.ok2xx =
        .validationError "Message is required") :=
  token_test_validation "   " "hi" .ok2xx .networkError (.inl (by decide))

end MaasBilling
